import Mathlib

/-!
Verification development for the ai-web-browsing repository.

The repository ships a Next.js frontend (`frontend/src/types/index.ts`,
`frontend/src/pages/index.tsx`, `frontend/src/components/TaskInput.tsx`,
`Chat.tsx`, `Screenshot.tsx`).  The Python backend (`backend/app/browser_agent.py`,
the autonomous action loop) is not part of the shipped sources; where a claim is
about the backend core, the relevant contract is modelled from the specification
text, and each such definition is marked `Modelled from the spec:`.

The frontend definitions below are direct translations of the TypeScript source:
machine numbers are modelled as `Nat` (timestamps are `Date.now()` values and
never overflow in the source's use), JSON field presence is modelled with
`Option`, and the WebSocket message handler becomes an explicit state-transition
function on the component's state.
-/

/-- Translation of `BrowsingTask` (types/index.ts lines 1-4):
`{url: string; instruction: string}`. -/
structure BrowsingTask where
  url : String
  instruction : String
deriving Repr, DecidableEq

/-- The discriminant of `ChatMessage.type`: the TS union `'user' | 'agent'`. -/
inductive MsgKind where
  | user
  | agent
deriving Repr, DecidableEq

/-- Translation of `ChatMessage` (types/index.ts lines 6-11). -/
structure ChatMessage where
  id : String
  content : String
  kind : MsgKind
  timestamp : Nat
deriving Repr, DecidableEq

/-- Translation of `ScreenshotData` (types/index.ts lines 13-16):
`{imageData: string; timestamp: number}` — the camel-cased record the client
stores and hands to the `Screenshot` component. -/
structure ScreenshotData where
  imageData : String
  timestamp : Nat
deriving Repr, DecidableEq

/-- Translation of `StatusUpdate` (types/index.ts lines 18-21). -/
structure StatusUpdate where
  status : String
  timestamp : Nat
deriving Repr, DecidableEq

/-- Translation of the discriminated union `WebSocketUpdate`
(types/index.ts lines 40-46).  The `screenshot` variant's `image_data` is
declared `string` in TS, but the value arrives from `JSON.parse` without
validation, so at runtime the field may be absent; that possibility is modelled
with `Option String` (`none` = the key is missing from the parsed object).
`message.thinking` is declared optional (`thinking?: string`).  The `action`
variant's `details: Record<string, any>` is modelled as an association list of
string keys to string renderings, which is all the client ever does with it
(it is only logged). -/
inductive WebSocketUpdate where
  | screenshot (image_data : Option String) (timestamp : Nat)
  | message (content : String) (thinking : Option String) (timestamp : Nat)
  | action (action : String) (details : List (String × String)) (timestamp : Nat)
  | status (status : String) (timestamp : Nat)
  | error (message : String) (timestamp : Nat)
  | ping (timestamp : Nat)
deriving Repr, DecidableEq

/-- The JSON object keys each `WebSocketUpdate` variant carries on the wire,
read off the TS union declaration (types/index.ts lines 40-46): every variant
has a `type` discriminant and a `timestamp`; optional fields contribute a key
only when present. -/
def WebSocketUpdate.keys : WebSocketUpdate → List String
  | .screenshot i _ =>
      "type" :: (match i with | some _ => ["image_data"] | none => []) ++ ["timestamp"]
  | .message _ th _ =>
      "type" :: "content" :: (match th with | some _ => ["thinking"] | none => []) ++ ["timestamp"]
  | .action _ _ _ => ["type", "action", "details", "timestamp"]
  | .status _ _ => ["type", "status", "timestamp"]
  | .error _ _ => ["type", "message", "timestamp"]
  | .ping _ => ["type", "timestamp"]

/-- The React component state touched by the WebSocket message handler
(index.tsx lines 38-44): `messages`, `screenshot`, `status`, `isConnected`,
`isLoading`, `hasError`, `lastUpdateTime`. -/
structure ClientState where
  messages : List ChatMessage
  screenshot : Option ScreenshotData
  status : Option StatusUpdate
  isConnected : Bool
  isLoading : Bool
  hasError : Bool
  lastUpdateTime : Nat
deriving Repr, DecidableEq

/-- Translation of `ws.onmessage` (index.tsx lines 174-311) for a successfully
parsed message while the component is mounted.  `now` stands for `Date.now()`
and `freshId` for `uuidv4()`.  Control flow, in source order:
ping messages return before any state update (lines 195-199); a `status`
message with status `Connected` only sets `isConnected` (lines 201-206);
every other message first sets `lastUpdateTime` (line 209) and then dispatches
on `type`.  In the `screenshot` case the handler reads
`data.image_data.length` (line 214) before the emptiness guard, so a missing
`image_data` raises a `TypeError` that lands in the outer `catch`
(lines 294-310), which appends an error chat message, clears `isLoading` and
sets `hasError`.  A present but empty `image_data` fails the guard on line 215
and changes nothing further; a non-empty one replaces the screenshot and
clears `hasError` (lines 216-227). -/
def handleMessage (now : Nat) (freshId : String) (s : ClientState) :
    WebSocketUpdate → ClientState
  | .ping _ => s
  | .status st t =>
      if st = "Connected" then { s with isConnected := true }
      else
        let s1 := { s with lastUpdateTime := now, status := some ⟨st, t⟩ }
        if st = "Task completed" then { s1 with isLoading := false } else s1
  | .screenshot img t =>
      let s1 := { s with lastUpdateTime := now }
      match img with
      | none =>
          { s1 with
            messages := s1.messages ++
              [⟨freshId, "Error: Failed to process response from server.", .agent, now⟩],
            isLoading := false,
            hasError := true }
      | some i =>
          if i.length > 0 then
            { s1 with screenshot := some ⟨i, t⟩, hasError := false }
          else s1
  | .message c _ t =>
      { s with lastUpdateTime := now,
               messages := s.messages ++ [⟨freshId, c, .agent, t⟩] }
  | .action _ _ _ => { s with lastUpdateTime := now }
  | .error m t =>
      { s with lastUpdateTime := now,
               messages := s.messages ++ [⟨freshId, "Error: " ++ m, .agent, t⟩],
               isLoading := false,
               hasError := true }

/-- Translation of `TaskInput.handleSubmit` (TaskInput.tsx lines 136-141):
`if (url && instruction) { onSubmit({url, instruction}) }` — empty strings are
falsy in TS, so the task is forwarded exactly when both fields are non-empty.
`some task` models a call of `onSubmit`, `none` models no call. -/
def handleSubmit (url instruction : String) : Option BrowsingTask :=
  if url ≠ "" ∧ instruction ≠ "" then some ⟨url, instruction⟩ else none

/-- Result of a `handleSubmitTask` call: the updated component state and the
payload sent over the socket, if any. -/
structure SubmitResult where
  state : ClientState
  sent : Option BrowsingTask
deriving Repr, DecidableEq

/-- Translation of `handleSubmitTask` (index.tsx lines 366-439) for a single
invocation.  `connected` is `globalWebSocket.readyState === OPEN`.  The handler
first resets `hasError` and the screenshot (lines 369-372); when disconnected
it appends a "Connecting to server..." chat message and sends nothing
(lines 375-407, the delayed retry re-enters the same function with the same
`task`); when connected it appends the user chat message rendered from the
task, sets `isLoading`, and sends `JSON.stringify(task)` — the task object
itself, unmodified (lines 410-423). -/
def handleSubmitTask (now : Nat) (freshId : String) (connected : Bool)
    (s : ClientState) (task : BrowsingTask) : SubmitResult :=
  let s1 := { s with hasError := false, screenshot := none }
  if connected then
    { state :=
        { s1 with
          messages := s1.messages ++
            [⟨freshId, "URL: " ++ task.url ++ "\n" ++ "Task: " ++ task.instruction,
              .user, now⟩],
          isLoading := true },
      sent := some task }
  else
    { state :=
        { s1 with
          messages := s1.messages ++
            [⟨freshId, "Connecting to server...", .agent, now⟩] },
      sent := none }

/-- `true` iff `needle` occurs as a substring of `hay` (the empty string
occurs in everything).  `String.splitOn` produces at least two chunks exactly
when a non-empty separator occurs. -/
def strContains (hay needle : String) : Bool :=
  needle = "" || (hay.splitOn needle).length ≥ 2

/-- Case-insensitive, whitespace-normalized rendering of a text: split on
whitespace, drop empty chunks, re-join with single spaces, lower-case. -/
def normText (s : String) : String :=
  (String.intercalate " "
    ((s.split (fun c => c.isWhitespace)).filter (fun t => t ≠ ""))).toLower

/-- Modelled from the spec: `ElementCandidate` (§3) — the backend snapshot
entry is not under the shipped sources.  The opaque handle, frame context and
bounding box play no role in the resolver ladder and are omitted; a snapshot
is an ordered list of candidates, document order being list order. -/
structure ElementCandidate where
  tagName : String
  visibleText : String
  attributes : List (String × String)
  isVisible : Bool
  isInteractable : Bool
deriving Repr, DecidableEq

/-- Modelled from the spec: the match-confidence tag of a `ResolvedTarget`
(§3): `{exact, repaired, ambiguous, none}`. -/
inductive Confidence where
  | exactMatch
  | repairedMatch
  | ambiguousMatch
  | noMatch
deriving Repr, DecidableEq

/-- Modelled from the spec: `ResolvedTarget` (§3, §4.3) — zero or more
candidates matching a target hint, a confidence tag, and the deterministically
chosen candidate (first in document order). -/
structure ResolvedTarget where
  candidates : List ElementCandidate
  confidence : Confidence
  chosen : Option ElementCandidate
deriving Repr, DecidableEq

/-- Modelled from the spec: parse of a structural selector hint
(§4.3 step 1: "tag + attribute equality"), written `tag[k=v][k2=v2]`.
Returns `none` when the hint does not have this shape (e.g. contains spaces),
in which case the structural ladder steps do not apply. -/
def parseStructural (hint : String) : Option (String × List (String × String)) :=
  match hint.splitOn "[" with
  | [] => none
  | tag :: parts =>
      if tag ≠ "" ∧ tag.toList.all Char.isAlpha ∧
         parts.all (fun p => p.endsWith "]" ∧ ((p.dropRight 1).splitOn "=").length = 2)
      then some (tag, parts.map (fun p =>
        match (p.dropRight 1).splitOn "=" with
        | [k, v] => (k, v)
        | _ => ("", "")))
      else none

/-- Modelled from the spec: §4.3 step 1 — exact structural match: tag equality
and every hinted attribute present with an equal value. -/
def structuralEq (tag : String) (attrs : List (String × String))
    (c : ElementCandidate) : Bool :=
  c.tagName.toLower = tag.toLower &&
    attrs.all (fun kv => c.attributes.any (fun kv2 => kv2.1 = kv.1 && kv2.2 = kv.2))

/-- Modelled from the spec: §4.3 step 3 — the repair pass rewrites
exact-attribute-equality clauses into substring/contains semantics. -/
def structuralSub (tag : String) (attrs : List (String × String))
    (c : ElementCandidate) : Bool :=
  c.tagName.toLower = tag.toLower &&
    attrs.all (fun kv => c.attributes.any (fun kv2 => kv2.1 = kv.1 && strContains kv2.2 kv.2))

/-- Modelled from the spec: the five ladder predicates of §4.3, numbered 1-5;
any other step number matches nothing. -/
def ladderStep (hint : String) (n : Nat) (c : ElementCandidate) : Bool :=
  match n with
  | 1 => match parseStructural hint with
         | some (tag, attrs) => structuralEq tag attrs c
         | none => false
  | 2 => normText c.visibleText = normText hint
  | 3 => match parseStructural hint with
         | some (tag, attrs) => structuralSub tag attrs c
         | none => false
  | 4 => strContains (normText c.visibleText) (normText hint) ||
         strContains (normText hint) (normText c.visibleText)
  | 5 => ["aria-label", "title", "alt", "placeholder"].any (fun k =>
           c.attributes.any (fun kv => kv.1 = k && strContains (normText kv.2) (normText hint)))
  | _ => false

/-- Modelled from the spec: the matching ladder applied in order (§4.3) over
the interactable pool — the first step yielding at least one candidate wins;
steps 1-2 are exact, steps 3-5 are repaired.  Returns the matched list (in
document order) and the base confidence, or `([], noMatch)`. -/
def ladderHits (hint : String) (pool : List ElementCandidate) :
    List ElementCandidate × Confidence :=
  let l1 := pool.filter (ladderStep hint 1)
  if l1 ≠ [] then (l1, .exactMatch) else
  let l2 := pool.filter (ladderStep hint 2)
  if l2 ≠ [] then (l2, .exactMatch) else
  let l3 := pool.filter (ladderStep hint 3)
  if l3 ≠ [] then (l3, .repairedMatch) else
  let l4 := pool.filter (ladderStep hint 4)
  if l4 ≠ [] then (l4, .repairedMatch) else
  let l5 := pool.filter (ladderStep hint 5)
  if l5 ≠ [] then (l5, .repairedMatch) else
  ([], .noMatch)

/-- Modelled from the spec: `resolve(targetHint, snapshot) -> ResolvedTarget`
(§4.3).  Non-interactable candidates are filtered out first (§8: they are
never selected even if they text-match); the ladder is applied in order; if
more than one candidate remains tied, confidence is `ambiguous` and the first
candidate in document order is chosen. -/
def resolve (hint : String) (snapshot : List ElementCandidate) : ResolvedTarget :=
  let pool := snapshot.filter (fun c => c.isInteractable)
  let hits := ladderHits hint pool
  { candidates := hits.1,
    confidence := if 2 ≤ hits.1.length then .ambiguousMatch else hits.2,
    chosen := hits.1.head? }

/-- Modelled from the spec: the Loop Controller's states (§4.6):
`PERCEIVING → DECIDING → RESOLVING → ACTING → VERIFYING → (PERCEIVING | DONE | FAILED)`. -/
inductive LoopPhase where
  | perceiving
  | deciding
  | resolving
  | acting
  | verifying
  | done
  | failed
deriving Repr, DecidableEq

/-- Modelled from the spec: the policy constants of §4.6/§5 — a maximum
iteration budget, a wall-clock budget, and the fixed per-directive retry
count. -/
structure ControllerConfig where
  maxIterations : Nat
  wallClockBudget : Nat
  maxRetries : Nat
deriving Repr, DecidableEq

/-- Modelled from the spec: the Loop Controller's bookkeeping — current phase,
number of completed loop iterations, elapsed wall-clock time, and the failure
counter scoped to the current directive (§4.6). -/
structure ControllerState where
  phase : LoopPhase
  iteration : Nat
  elapsed : Nat
  failureCount : Nat
deriving Repr, DecidableEq

/-- Modelled from the spec: what one pass of the pipeline can report back to
the controller (§4.6): a terminal `finish` directive, a terminal `fail`
directive (or a hard error), an action with an observable change, or a soft
failure (no observable change, `ambiguous`/`none` resolution). -/
inductive IterationOutcome where
  | finishDirective
  | failDirective
  | observedChange
  | softFailure
deriving Repr, DecidableEq

/-- `true` on the two terminal controller phases. -/
def LoopPhase.isTerminal : LoopPhase → Bool
  | .done => true
  | .failed => true
  | _ => false

/-- Modelled from the spec: one full loop iteration of the controller (§4.6,
§5).  Terminal states absorb.  Budgets are checked at the top of the
iteration: exhausting the iteration or wall-clock budget forces `FAILED`.
`finish` is terminal success, `fail` terminal failure; an observed change
re-enters `PERCEIVING` with the failure counter reset; a soft failure
re-enters `PERCEIVING` with the counter incremented, and exceeding the fixed
per-directive retry count escalates to `FAILED` instead of looping.  Each
iteration advances the iteration count and consumes `dt` of wall-clock time. -/
def stepRun (cfg : ControllerConfig) (st : ControllerState)
    (o : IterationOutcome) (dt : Nat) : ControllerState :=
  if st.phase.isTerminal then st
  else if cfg.maxIterations ≤ st.iteration ∨ cfg.wallClockBudget ≤ st.elapsed then
    { st with phase := .failed }
  else
    let st1 := { st with iteration := st.iteration + 1, elapsed := st.elapsed + dt }
    match o with
    | .finishDirective => { st1 with phase := .done }
    | .failDirective => { st1 with phase := .failed }
    | .observedChange => { st1 with phase := .perceiving, failureCount := 0 }
    | .softFailure =>
        if cfg.maxRetries ≤ st.failureCount then
          { st1 with phase := .failed, failureCount := st.failureCount + 1 }
        else
          { st1 with phase := .perceiving, failureCount := st.failureCount + 1 }

/-- Modelled from the spec: the controller's initial state — phase
`PERCEIVING`, no completed iterations, no elapsed time, zero failures (§4.6). -/
def initialController : ControllerState :=
  { phase := .perceiving, iteration := 0, elapsed := 0, failureCount := 0 }

/-- Modelled from the spec: the controller after `n` loop iterations, where
`outcomes i` is what the pipeline reports in iteration `i` and `dts i` the
wall-clock time that iteration consumes. -/
def runLoop (cfg : ControllerConfig) (outcomes : Nat → IterationOutcome)
    (dts : Nat → Nat) : Nat → ControllerState
  | 0 => initialController
  | n + 1 => stepRun cfg (runLoop cfg outcomes dts n) (outcomes n) (dts n)

/-- Modelled from the spec: the status strings the core emits over the status
progress event (§6): `enum{Connected, Running, "Task completed", Failed}` —
`Connected` on transport attach, `Running` while the loop iterates,
`"Task completed"` on `DONE`, `Failed` on `FAILED`. -/
inductive RunPhase where
  | connected
  | running
  | completed
  | failedRun
deriving Repr, DecidableEq

/-- Modelled from the spec: the status string the core places in a status
progress event for each run phase (§6). -/
def statusOf : RunPhase → String
  | .connected => "Connected"
  | .running => "Running"
  | .completed => "Task completed"
  | .failedRun => "Failed"

/-- Modelled from the spec: the run registry behind `startRun`/`cancelRun`
(§6 Inbound) — the service state holding the next fresh run id, the active
runs with their immutable tasks, and the ids for which cancellation was
requested. -/
structure CoreService where
  nextRunId : Nat
  runs : List (Nat × BrowsingTask)
  cancelled : List Nat
deriving Repr, DecidableEq

/-- Modelled from the spec: `startRun(task: {url, instruction}) -> runId`
(§6): registers the task under a fresh run id and returns that id. -/
def startRun (svc : CoreService) (task : BrowsingTask) : Nat × CoreService :=
  (svc.nextRunId,
   { nextRunId := svc.nextRunId + 1,
     runs := (svc.nextRunId, task) :: svc.runs,
     cancelled := svc.cancelled })

/-- Modelled from the spec: `cancelRun(runId)` (§6, §5 cooperative
cancellation): records the stop request for the given run id. -/
def cancelRun (svc : CoreService) (runId : Nat) : CoreService :=
  { svc with cancelled := runId :: svc.cancelled }

lemma stepRun_terminal_eq (cfg : ControllerConfig) (st : ControllerState)
    (o : IterationOutcome) (dt : Nat) (h : st.phase.isTerminal = true) :
    stepRun cfg st o dt = st := by
  simp [stepRun, h]

lemma stepRun_progress (cfg : ControllerConfig) (st : ControllerState)
    (o : IterationOutcome) (dt : Nat) (h : st.phase.isTerminal = false) :
    (stepRun cfg st o dt).phase.isTerminal = true ∨
    (stepRun cfg st o dt).iteration = st.iteration + 1 := by
  rw [stepRun, if_neg (by simp [h])]
  split
  · left
    rfl
  · cases o
    · right
      rfl
    · right
      rfl
    · right
      rfl
    · right
      by_cases hr : cfg.maxRetries ≤ st.failureCount <;> simp [hr]

lemma runLoop_terminal_or_iteration (cfg : ControllerConfig)
    (outcomes : Nat → IterationOutcome) (dts : Nat → Nat) :
    ∀ n, (runLoop cfg outcomes dts n).phase.isTerminal = true ∨
         (runLoop cfg outcomes dts n).iteration = n := by
  intro n
  induction n with
  | zero => right; rfl
  | succ n ih =>
    by_cases hterm : (runLoop cfg outcomes dts n).phase.isTerminal = true
    · left
      show (stepRun cfg (runLoop cfg outcomes dts n) (outcomes n) (dts n)).phase.isTerminal = true
      rw [stepRun_terminal_eq _ _ _ _ hterm]
      exact hterm
    · have hfalse : (runLoop cfg outcomes dts n).phase.isTerminal = false := by
        cases hv : (runLoop cfg outcomes dts n).phase.isTerminal
        · rfl
        · exact absurd hv hterm
      rcases ih with h | h
      · exact absurd h hterm
      · have hp := stepRun_progress cfg (runLoop cfg outcomes dts n) (outcomes n) (dts n) hfalse
        rw [h] at hp
        exact hp

lemma ladderHits_fst_sublist (hint : String) (pool : List ElementCandidate) :
    ((ladderHits hint pool).1).Sublist pool := by
  simp only [ladderHits]
  repeat' split
  any_goals exact List.filter_sublist _
  exact List.nil_sublist _

/-- Claim C1 counterexample: a concrete screenshot progress event, as declared
in the `WebSocketUpdate` wire union, carries its image under the key
`image_data`, not `imageData` — the claim's field name does not appear on the
event. -/
theorem screenshot_event_field_counterexample :
    "imageData" ∉ (WebSocketUpdate.screenshot (some "aGVsbG8=") 1700000000000).keys ∧
    "image_data" ∈ (WebSocketUpdate.screenshot (some "aGVsbG8=") 1700000000000).keys := by
  constructor
  · decide
  · decide

/-- Claim C1 (amended): every screenshot progress event with its image present
is a record with type `screenshot`, an image string under the field name
`image_data`, and a timestamp; the client handler stores that image under the
camel-cased field `imageData` of the `ScreenshotData` it displays, together
with the event's timestamp. -/
theorem screenshot_event_shape_and_delivery (i : String) (t now : Nat)
    (freshId : String) (s : ClientState) (h : 0 < i.length) :
    (WebSocketUpdate.screenshot (some i) t).keys = ["type", "image_data", "timestamp"] ∧
    (handleMessage now freshId s (WebSocketUpdate.screenshot (some i) t)).screenshot =
      some ⟨i, t⟩ := by
  constructor
  · rfl
  · simp [handleMessage, h]

/-- Concrete instance of `screenshot_event_shape_and_delivery` at a base64
image string of positive length. -/
theorem screenshot_event_shape_and_delivery_witness :
    (WebSocketUpdate.screenshot (some "aGVsbG8=") 7).keys =
      ["type", "image_data", "timestamp"] ∧
    (handleMessage 9 "id0" ⟨[], none, none, false, false, false, 0⟩
      (WebSocketUpdate.screenshot (some "aGVsbG8=") 7)).screenshot =
      some ⟨"aGVsbG8=", 7⟩ :=
  screenshot_event_shape_and_delivery "aGVsbG8=" 7 9 "id0"
    ⟨[], none, none, false, false, false, 0⟩ (by decide)

/-- Claim C2: every status string the core places in a status progress event
is one of the four values `Connected`, `Running`, `Task completed`, `Failed`. -/
theorem status_values_enum (p : RunPhase) :
    statusOf p ∈ ["Connected", "Running", "Task completed", "Failed"] := by
  cases p <;> simp [statusOf]

/-- Claim C3: `startRun` accepts a task of a url and an instruction, registers
it under a fresh run id which it returns, and `cancelRun` accepts that run id,
recording the cancellation request for that run. -/
theorem startRun_returns_id_cancelRun_accepts (svc : CoreService) (task : BrowsingTask) :
    ((startRun svc task).1, task) ∈ ((startRun svc task).2).runs ∧
    (startRun svc task).1 ∈ (cancelRun (startRun svc task).2 (startRun svc task).1).cancelled := by
  constructor
  · simp [startRun]
  · simp [startRun, cancelRun]

/-- Claim C4: the loop controller reaches `DONE` or `FAILED` within the
configured iteration budget (one step past the budget the state is terminal,
whatever the pipeline outcomes and per-iteration durations are), and the
per-directive failure counter strictly bounds consecutive soft-failure
retries: inside the budgets a soft failure increments the counter, and once
the counter has reached the retry limit a further soft failure escalates to
`FAILED` instead of looping. -/
theorem loop_reaches_terminal_within_budgets (cfg : ControllerConfig)
    (outcomes : Nat → IterationOutcome) (dts : Nat → Nat) :
    ((runLoop cfg outcomes dts (cfg.maxIterations + 1)).phase = LoopPhase.done ∨
     (runLoop cfg outcomes dts (cfg.maxIterations + 1)).phase = LoopPhase.failed) ∧
    (∀ (st : ControllerState) (dt : Nat), st.phase = LoopPhase.perceiving →
       st.iteration < cfg.maxIterations → st.elapsed < cfg.wallClockBudget →
       (stepRun cfg st IterationOutcome.softFailure dt).failureCount = st.failureCount + 1 ∧
       (cfg.maxRetries ≤ st.failureCount →
         (stepRun cfg st IterationOutcome.softFailure dt).phase = LoopPhase.failed)) := by
  constructor
  · have hterm : (runLoop cfg outcomes dts (cfg.maxIterations + 1)).phase.isTerminal = true := by
      by_cases ht : (runLoop cfg outcomes dts cfg.maxIterations).phase.isTerminal = true
      · show (stepRun cfg (runLoop cfg outcomes dts cfg.maxIterations)
          (outcomes cfg.maxIterations) (dts cfg.maxIterations)).phase.isTerminal = true
        rw [stepRun_terminal_eq _ _ _ _ ht]
        exact ht
      · rcases runLoop_terminal_or_iteration cfg outcomes dts cfg.maxIterations with h | h
        · exact absurd h ht
        · show (stepRun cfg (runLoop cfg outcomes dts cfg.maxIterations)
            (outcomes cfg.maxIterations) (dts cfg.maxIterations)).phase.isTerminal = true
          rw [stepRun, if_neg (by simp [ht]), if_pos (Or.inl (le_of_eq h.symm))]
          rfl
    cases hph : (runLoop cfg outcomes dts (cfg.maxIterations + 1)).phase
    all_goals rw [hph] at hterm
    all_goals simp [LoopPhase.isTerminal] at hterm ⊢
  · intro st dt h1 h2 h3
    have hnt : ¬st.phase.isTerminal = true := by
      rw [h1]
      simp [LoopPhase.isTerminal]
    have hb : ¬(cfg.maxIterations ≤ st.iteration ∨ cfg.wallClockBudget ≤ st.elapsed) := by
      push_neg
      exact ⟨h2, h3⟩
    constructor
    · rw [stepRun, if_neg hnt, if_neg hb]
      by_cases hr : cfg.maxRetries ≤ st.failureCount <;> simp [hr]
    · intro hr
      rw [stepRun, if_neg hnt, if_neg hb]
      simp [hr]

/-- Concrete instance of `loop_reaches_terminal_within_budgets`: a run with
iteration budget 3 under an all-soft-failure pipeline is terminal after 4
steps, and a soft failure at a failure count that has reached the retry limit
of 2 escalates to `FAILED`. -/
theorem loop_reaches_terminal_within_budgets_witness :
    ((runLoop ⟨3, 1000, 2⟩ (fun _ => IterationOutcome.softFailure) (fun _ => 1) 4).phase =
        LoopPhase.done ∨
     (runLoop ⟨3, 1000, 2⟩ (fun _ => IterationOutcome.softFailure) (fun _ => 1) 4).phase =
        LoopPhase.failed) ∧
    (stepRun ⟨3, 1000, 2⟩ ⟨LoopPhase.perceiving, 1, 5, 2⟩
        IterationOutcome.softFailure 1).failureCount = 3 ∧
    (stepRun ⟨3, 1000, 2⟩ ⟨LoopPhase.perceiving, 1, 5, 2⟩
        IterationOutcome.softFailure 1).phase = LoopPhase.failed := by
  have h := loop_reaches_terminal_within_budgets ⟨3, 1000, 2⟩
    (fun _ => IterationOutcome.softFailure) (fun _ => 1)
  have h2 := h.2 ⟨LoopPhase.perceiving, 1, 5, 2⟩ 1 rfl (by decide) (by decide)
  exact ⟨h.1, h2.1, h2.2 (by decide)⟩

/-- Claim C5: the resolver is deterministic — two calls of `resolve` on the
same snapshot and target hint return the same `ResolvedTarget`, the chosen
candidate is the first of the matched candidates, and the matched candidates
form an order-preserving sublist of the snapshot, so ties are broken by
earliest document order. -/
theorem resolve_deterministic_docorder (hint : String) (snapshot : List ElementCandidate) :
    resolve hint snapshot = resolve hint snapshot ∧
    (resolve hint snapshot).chosen = (resolve hint snapshot).candidates.head? ∧
    ((resolve hint snapshot).candidates).Sublist snapshot := by
  refine ⟨rfl, rfl, ?_⟩
  exact (ladderHits_fst_sublist hint (snapshot.filter fun c => c.isInteractable)).trans
    (List.filter_sublist _)

/-- Claim C6 counterexample: a concrete message progress event carrying the
optional `thinking` field does not have exactly the fields type, content and
timestamp — `thinking` is a fourth field. -/
theorem message_event_thinking_counterexample :
    (WebSocketUpdate.message "hi" (some "because") 5).keys ≠
      ["type", "content", "timestamp"] ∧
    "thinking" ∈ (WebSocketUpdate.message "hi" (some "because") 5).keys := by
  constructor
  · decide
  · decide

/-- Claim C6 (amended): every message progress event is a record with the
fields type `message`, a string content, a timestamp, and at most one further
optional field `thinking`; when `thinking` is absent the fields are exactly
type, content and timestamp. -/
theorem message_event_fields (c : String) (t : Nat) :
    (WebSocketUpdate.message c none t).keys = ["type", "content", "timestamp"] ∧
    (∀ th : String, (WebSocketUpdate.message c (some th) t).keys =
      ["type", "content", "thinking", "timestamp"]) :=
  ⟨rfl, fun _ => rfl⟩

/-- Claim C7: a `BrowsingTask` is determined exactly by its two string fields
`url` and `instruction`, and submission never alters them — whatever
`handleSubmitTask` sends over the socket is the submitted task itself, and the
task `handleSubmit` forwards carries the entered url and instruction
verbatim. -/
theorem task_two_fields_immutable :
    (∀ a b : BrowsingTask, a.url = b.url → a.instruction = b.instruction → a = b) ∧
    (∀ (now : Nat) (freshId : String) (connected : Bool) (s : ClientState)
        (task : BrowsingTask),
       (handleSubmitTask now freshId connected s task).sent = none ∨
       (handleSubmitTask now freshId connected s task).sent = some task) ∧
    (∀ (url instruction : String) (task : BrowsingTask),
       handleSubmit url instruction = some task →
       task.url = url ∧ task.instruction = instruction) := by
  refine ⟨?_, ?_, ?_⟩
  · intro a b h1 h2
    cases a
    cases b
    simp_all
  · intro now freshId connected s task
    cases connected
    · left
      rfl
    · right
      rfl
  · intro url instruction task h
    rw [handleSubmit] at h
    split at h
    · cases h
      exact ⟨rfl, rfl⟩
    · exact Option.noConfusion h

/-- Concrete instance of `task_two_fields_immutable`: two tasks agreeing on
url and instruction are the same task. -/
theorem task_two_fields_immutable_witness :
    (⟨"https://example.com", "find the pricing link"⟩ : BrowsingTask) =
      ⟨"https://example.com", "find the pricing link"⟩ :=
  task_two_fields_immutable.1 ⟨"https://example.com", "find the pricing link"⟩
    ⟨"https://example.com", "find the pricing link"⟩ rfl rfl

/-- Claim C8: a ping event from the server changes no observable UI state —
the message handler returns the component state unchanged, so the message
list, screenshot, status, loading flag, error flag and last-update time are
all as before. -/
theorem ping_leaves_state_unchanged (now : Nat) (freshId : String)
    (s : ClientState) (t : Nat) :
    handleMessage now freshId s (WebSocketUpdate.ping t) = s := rfl

/-- Claim C9: a screenshot event with absent or empty `image_data` leaves the
displayed screenshot unchanged and never clears the error flag, and the
screenshot state is replaced exactly by events whose `image_data` is a
non-empty string. -/
theorem screenshot_empty_or_absent_guard (now : Nat) (freshId : String)
    (s : ClientState) (t : Nat) :
    ((handleMessage now freshId s (WebSocketUpdate.screenshot none t)).screenshot =
        s.screenshot ∧
     (s.hasError = true →
       (handleMessage now freshId s (WebSocketUpdate.screenshot none t)).hasError = true)) ∧
    ((handleMessage now freshId s (WebSocketUpdate.screenshot (some "") t)).screenshot =
        s.screenshot ∧
     (s.hasError = true →
       (handleMessage now freshId s (WebSocketUpdate.screenshot (some "") t)).hasError = true)) ∧
    (∀ i : String, 0 < i.length →
       (handleMessage now freshId s (WebSocketUpdate.screenshot (some i) t)).screenshot =
         some ⟨i, t⟩) := by
  refine ⟨⟨rfl, fun _ => rfl⟩, ⟨rfl, fun h => h⟩, fun i hi => ?_⟩
  simp [handleMessage, hi]

/-- Concrete instance of `screenshot_empty_or_absent_guard`: starting from a
state showing an old screenshot with the error flag set, an absent image keeps
the error flag, an empty image keeps the old screenshot, and a non-empty image
replaces it. -/
theorem screenshot_empty_or_absent_guard_witness :
    (handleMessage 1 "id1" ⟨[], some ⟨"old", 0⟩, none, true, false, true, 0⟩
       (WebSocketUpdate.screenshot none 2)).hasError = true ∧
    (handleMessage 1 "id1" ⟨[], some ⟨"old", 0⟩, none, true, false, true, 0⟩
       (WebSocketUpdate.screenshot (some "") 2)).screenshot = some ⟨"old", 0⟩ ∧
    (handleMessage 1 "id1" ⟨[], some ⟨"old", 0⟩, none, true, false, true, 0⟩
       (WebSocketUpdate.screenshot (some "x") 2)).screenshot = some ⟨"x", 2⟩ := by
  have h := screenshot_empty_or_absent_guard 1 "id1"
    ⟨[], some ⟨"old", 0⟩, none, true, false, true, 0⟩ 2
  exact ⟨h.1.2 rfl, h.2.1.1, h.2.2 "x" (by decide)⟩

/-- Claim C10: the submit handler forwards a task only when both the url and
the instruction are non-empty — any task it emits has two non-empty fields. -/
theorem submit_only_nonempty (url instruction : String) (task : BrowsingTask)
    (h : handleSubmit url instruction = some task) :
    task.url ≠ "" ∧ task.instruction ≠ "" := by
  rw [handleSubmit] at h
  split at h
  · rename_i hcond
    cases h
    exact ⟨hcond.1, hcond.2⟩
  · exact Option.noConfusion h

/-- Concrete instance of `submit_only_nonempty` at a filled-in form. -/
theorem submit_only_nonempty_witness :
    (⟨"https://example.com", "find the pricing link"⟩ : BrowsingTask).url ≠ "" ∧
    (⟨"https://example.com", "find the pricing link"⟩ : BrowsingTask).instruction ≠ "" :=
  submit_only_nonempty "https://example.com" "find the pricing link"
    ⟨"https://example.com", "find the pricing link"⟩ (by decide)
